import Mathlib

/-!
Shallow embedding of the newsapi library (src/lib.rs): the configuration
builder, the URL composer and the response classifier, together with proofs
of the specification claims about them.
-/

/-- The fixed base URL constant from src/lib.rs line 6. -/
def BASE_URL : String := "https://newsapi.org/v2"

/-- Error taxonomy mirroring the NewsAPIError enum.  The payloads that are
opaque transport errors in the source (ureq, io, serde_json, reqwest errors)
are dropped; the payloads that matter to the claims are kept: the parse
error for UrlParsing and the static reason string for BadRequest. -/
inductive NewsAPIError where
  | RequestFailed
  | FailedResponseToString
  | ArticleParseFail
  | UrlParsing (e : String)
  | BadRequest (reason : String)
  | AsyncRequestFailed
  deriving DecidableEq

/-- Hierarchical URL model covering what the url crate does on the inputs
this library feeds it: scheme, host, path segments and an optional raw query
string.  BASE_URL contains no user info, port, query or fragment, so those
components are omitted from the model. -/
structure Url where
  scheme : String
  host : String
  pathSegments : List String
  query : Option String
  deriving DecidableEq

/-- The UTF-8 byte sequence of one character, as Nats in 0..255. -/
def utf8Bytes (c : Char) : List Nat :=
  let n := c.toNat
  if n < 128 then [n]
  else if n < 2048 then [192 + n / 64, 128 + n % 64]
  else if n < 65536 then [224 + n / 4096, 128 + n / 64 % 64, 128 + n % 64]
  else [240 + n / 262144, 128 + n / 4096 % 64, 128 + n / 64 % 64, 128 + n % 64]

/-- Upper-case hexadecimal digit for a value below 16. -/
def hexDigit (n : Nat) : Char :=
  if n < 10 then Char.ofNat (48 + n) else Char.ofNat (55 + n)

/-- Percent escape of a single byte. -/
def percentEncodeByte (b : Nat) : String :=
  String.mk [Char.ofNat 37, hexDigit (b / 16), hexDigit (b % 16)]

/-- Bytes the url crate leaves unescaped when pushing a path segment:
printable ASCII outside the PATH_SEGMENT encode set.  Controls, space, the
characters with codes 34, 35, 60, 62, 63, 96 (double quote, hash, less-than,
greater-than, question mark, backquote), the slash, backslash, percent and
the two curly brackets, as well as DEL and all non-ASCII bytes, are escaped.
The only segment this library pushes is made of ASCII letters and hyphens,
all of which every version of the crate leaves unescaped. -/
def pathSegmentByteSafe (b : Nat) : Bool :=
  32 < b && b < 127 &&
    !(b = 34 || b = 35 || b = 60 || b = 62 || b = 63 || b = 96 ||
      b = 47 || b = 92 || b = 37 || b = 123 || b = 125)

/-- Bytes left unescaped by set_query on a special-scheme (https) URL:
printable ASCII except space, double quote, hash, apostrophe (code 39),
less-than and greater-than.  The only queries this library sets are made of
ASCII letters and the equals sign, all unescaped. -/
def queryByteSafe (b : Nat) : Bool :=
  32 < b && b < 127 && !(b = 34 || b = 35 || b = 39 || b = 60 || b = 62)

/-- Percent-encode a string, escaping every UTF-8 byte the given predicate
rejects. -/
def percentEncodeWith (safe : Nat → Bool) (s : String) : String :=
  String.join (s.data.map (fun c =>
    String.join ((utf8Bytes c).map (fun b =>
      if safe b then String.mk [Char.ofNat b] else percentEncodeByte b))))

/-- Characters before the first occurrence of the separator, and the rest
of the list from that separator on. -/
def span_until (sep : Char) : List Char → List Char × List Char
  | [] => ([], [])
  | c :: rest =>
    if c = sep then ([], c :: rest)
    else
      match span_until sep rest with
      | (before, after) => (c :: before, after)

/-- Split a character list at every occurrence of the separator. -/
def splitCharsOn (sep : Char) : List Char → List (List Char)
  | [] => [[]]
  | c :: rest =>
    if c = sep then [] :: splitCharsOn sep rest
    else
      match splitCharsOn sep rest with
      | [] => [[c]]
      | h :: t => (c :: h) :: t

/-- Url::parse, restricted to the absolute hierarchical shape
scheme://host/seg1/.../segN that this library actually gives it (the fixed
BASE_URL constant): the scheme runs to the first colon, two slashes
introduce the host, further slashes separate path segments.  User info,
ports, queries, fragments and non-hierarchical scheme forms never occur in
that constant and are rejected rather than parsed. -/
def Url.parse (s : String) : Except String Url :=
  match span_until ':' s.data with
  | (schemeChars, rest) =>
    if schemeChars = [] then Except.error "relative URL without a base"
    else
      match rest with
      | ':' :: '/' :: '/' :: hostPath =>
        match splitCharsOn '/' hostPath with
        | [] => Except.error "empty host"
        | hostChars :: segs =>
          if hostChars = [] then Except.error "empty host"
          else Except.ok { scheme := String.mk schemeChars,
                           host := String.mk hostChars,
                           pathSegments := segs.map String.mk,
                           query := none }
      | _ => Except.error "relative URL without a base"

/-- Serialization of a URL, as Url implements Display/ToString. -/
def Url.toString (u : Url) : String :=
  u.scheme ++ "://" ++ u.host ++ "/" ++ String.intercalate "/" u.pathSegments ++
    match u.query with
    | some q => "?" ++ q
    | none => ""

/-- PathSegmentsMut::push: appends one percent-encoded path segment.  Every
URL this library builds comes from the parse above, hence is hierarchical
(not cannot-be-a-base), so the path_segments_mut().unwrap() in the source
always succeeds and push is modelled as a total function. -/
def Url.push (u : Url) (seg : String) : Url :=
  { u with pathSegments :=
      u.pathSegments ++ [percentEncodeWith pathSegmentByteSafe seg] }

/-- Url::set_query: replaces the whole query string, percent-encoding it. -/
def Url.set_query (u : Url) (q : Option String) : Url :=
  { u with query := q.map (percentEncodeWith queryByteSafe) }

/-- The Endpoint enum: one variant. -/
inductive Endpoint where
  | TopHeadlines
  deriving DecidableEq

/-- ToString for Endpoint. -/
def Endpoint.toString : Endpoint → String
  | Endpoint.TopHeadlines => "top-headlines"

/-- The Country enum: two variants. -/
inductive Country where
  | US
  | FR
  deriving DecidableEq

/-- ToString for Country. -/
def Country.toString : Country → String
  | Country.US => "us"
  | Country.FR => "fr"

/-- A decoded article record. -/
structure Article where
  title : String
  url : String
  description : Option String
  deriving DecidableEq

/-- A decoded API response record. -/
structure NewsAPIResponse where
  status : String
  articles : List Article
  code : Option String
  deriving DecidableEq

/-- The NewsAPI configuration struct. -/
structure NewsAPI where
  api_key : String
  endpoint : Endpoint
  country : Country
  deriving DecidableEq

/-- NewsAPI::new: defaults to TopHeadlines and US. -/
def NewsAPI.new (api_key : String) : NewsAPI :=
  { api_key := api_key, endpoint := Endpoint.TopHeadlines,
    country := Country.US }

/-- The fluent setter NewsAPI::endpoint; the in-place mutation through the
returned mutable reference is modelled as returning the updated
configuration. -/
def NewsAPI.set_endpoint (self : NewsAPI) (endpoint : Endpoint) : NewsAPI :=
  { self with endpoint := endpoint }

/-- The fluent setter NewsAPI::country, modelled like set_endpoint. -/
def NewsAPI.set_country (self : NewsAPI) (country : Country) : NewsAPI :=
  { self with country := country }

/-- NewsAPI::prepare_url: parse BASE_URL, push the endpoint string as a path
segment, set the query to country=(country string), serialize. -/
def NewsAPI.prepare_url (self : NewsAPI) : Except NewsAPIError String :=
  match Url.parse BASE_URL with
  | Except.error e => Except.error (NewsAPIError.UrlParsing e)
  | Except.ok url0 =>
    let url1 := url0.push self.endpoint.toString
    let country := "country=" ++ self.country.toString
    let url2 := url1.set_query (some country)
    Except.ok url2.toString

/-- map_response_err from src/lib.rs: the error-code table. -/
def map_response_err (code : Option String) : NewsAPIError :=
  match code with
  | some code =>
    if code = "apiKeyDisabled" then
      NewsAPIError.BadRequest "Your API key has been disabled"
    else NewsAPIError.BadRequest "Unknown error"
  | none => NewsAPIError.BadRequest "Unknown error"

/-- The pure tail of the blocking NewsAPI::fetch: the match on
response.status after the transport call and JSON decode. -/
def fetch_classify (response : NewsAPIResponse) :
    Except NewsAPIError NewsAPIResponse :=
  if response.status = "ok" then Except.ok response
  else Except.error (map_response_err response.code)

/-- The pure tail of NewsAPI::fetch_async: its own copy of the status match. -/
def fetch_async_classify (response : NewsAPIResponse) :
    Except NewsAPIError NewsAPIResponse :=
  if response.status = "ok" then Except.ok response
  else Except.error (map_response_err response.code)

/-- The pure tail of NewsAPI::fetch_web: its own copy of the status match. -/
def fetch_web_classify (response : NewsAPIResponse) :
    Except NewsAPIError NewsAPIResponse :=
  if response.status = "ok" then Except.ok response
  else Except.error (map_response_err response.code)

/-- The URL the blocking fetch requests. -/
def fetch_url (self : NewsAPI) : Except NewsAPIError String :=
  self.prepare_url

/-- The URL the async fetch requests. -/
def fetch_async_url (self : NewsAPI) : Except NewsAPIError String :=
  self.prepare_url

/-- The URL the browser fetch requests. -/
def fetch_web_url (self : NewsAPI) : Except NewsAPIError String :=
  self.prepare_url

/-- Header name and value attached by the blocking fetch. -/
def fetch_header (self : NewsAPI) : String × String :=
  ("Authorization", self.api_key)

/-- Header name and value attached by the async fetch. -/
def fetch_async_header (self : NewsAPI) : String × String :=
  ("Authorization", self.api_key)

/-- Header name and value attached by the browser fetch. -/
def fetch_web_header (self : NewsAPI) : String × String :=
  ("Authorization", self.api_key)


/-- Claim C1: for every endpoint, country and api_key, composing the request
URL yields exactly https://newsapi.org/v2/(endpoint string)?country=(country
string), with country as the only query parameter and no other components. -/
theorem C1_prepare_url_exact_shape (k : String) (e : Endpoint) (c : Country) :
    NewsAPI.prepare_url { api_key := k, endpoint := e, country := c } =
      Except.ok ("https://newsapi.org/v2/" ++ e.toString ++ "?country=" ++
        c.toString) := by
  cases e
  cases c <;> rfl

/-- Claim C2: a configuration freshly built by new with no setters called has
endpoint TopHeadlines and country US, and composes to exactly
https://newsapi.org/v2/top-headlines?country=us, for every api_key. -/
theorem C2_default_config (k : String) :
    (NewsAPI.new k).endpoint = Endpoint.TopHeadlines ∧
    (NewsAPI.new k).country = Country.US ∧
    (NewsAPI.new k).prepare_url =
      Except.ok "https://newsapi.org/v2/top-headlines?country=us" :=
  ⟨rfl, rfl, by rfl⟩

/-- Claim C3: when the status field equals "ok", classification returns
success with the response unchanged, so the articles sequence, with every
title, url and optional description, is preserved exactly. -/
theorem C3_classify_ok_identity (r : NewsAPIResponse) (h : r.status = "ok") :
    fetch_classify r = Except.ok r ∧
    ∃ r2, fetch_classify r = Except.ok r2 ∧ r2.articles = r.articles := by
  constructor
  · simp [fetch_classify, h]
  · exact ⟨r, by simp [fetch_classify, h], rfl⟩

/-- Witness for C3 at a concrete response whose articles hold both a present
and an absent description. -/
theorem C3_witness :
    fetch_classify
        { status := "ok",
          articles :=
            [{ title := "a", url := "u", description := some "d" },
             { title := "b", url := "v", description := none }],
          code := none } =
      Except.ok
        { status := "ok",
          articles :=
            [{ title := "a", url := "u", description := some "d" },
             { title := "b", url := "v", description := none }],
          code := none } :=
  (C3_classify_ok_identity
    { status := "ok",
      articles :=
        [{ title := "a", url := "u", description := some "d" },
         { title := "b", url := "v", description := none }],
      code := none } rfl).1

/-- Claim C4: when the status is not "ok" and the code is apiKeyDisabled,
classification returns exactly the BadRequest error carrying the API key
disabled message, and no other error kind. -/
theorem C4_classify_api_key_disabled (r : NewsAPIResponse)
    (h : r.status ≠ "ok") (hc : r.code = some "apiKeyDisabled") :
    fetch_classify r =
      Except.error
        (NewsAPIError.BadRequest "Your API key has been disabled") := by
  unfold fetch_classify
  rw [if_neg h, hc]
  rfl

/-- Witness for C4 at a concrete error response. -/
theorem C4_witness :
    fetch_classify
        { status := "error", articles := [], code := some "apiKeyDisabled" } =
      Except.error
        (NewsAPIError.BadRequest "Your API key has been disabled") :=
  C4_classify_api_key_disabled
    { status := "error", articles := [], code := some "apiKeyDisabled" }
    (by decide) rfl

/-- Claim C5: when the status is not "ok" and the code is either absent or
some string other than apiKeyDisabled, classification returns the same
generic BadRequest error with message Unknown error in both cases. -/
theorem C5_classify_unknown_fallback (r : NewsAPIResponse)
    (h : r.status ≠ "ok")
    (hc : r.code = none ∨ ∃ s, r.code = some s ∧ s ≠ "apiKeyDisabled") :
    fetch_classify r =
      Except.error (NewsAPIError.BadRequest "Unknown error") := by
  unfold fetch_classify
  rw [if_neg h]
  rcases hc with hn | ⟨s, hs, hne⟩
  · rw [hn]
    rfl
  · rw [hs]
    simp [map_response_err, hne]

/-- Witness for C5, covering both an unrecognized code and an absent code. -/
theorem C5_witness :
    fetch_classify
        { status := "error", articles := [], code := some "somethingElse" } =
        Except.error (NewsAPIError.BadRequest "Unknown error") ∧
    fetch_classify { status := "error", articles := [], code := none } =
        Except.error (NewsAPIError.BadRequest "Unknown error") :=
  ⟨C5_classify_unknown_fallback
      { status := "error", articles := [], code := some "somethingElse" }
      (by decide) (Or.inr ⟨"somethingElse", rfl, by decide⟩),
   C5_classify_unknown_fallback
      { status := "error", articles := [], code := none }
      (by decide) (Or.inl rfl)⟩

/-- Claim C6: the three transport variants share their pure core: for the
same configuration they compose the same URL and attach the same header name
and value, and for the same decoded response they classify identically; the
classifiers are Lean functions, hence pure. -/
theorem C6_variants_agree (cfg : NewsAPI) (r : NewsAPIResponse) :
    fetch_url cfg = fetch_async_url cfg ∧
    fetch_url cfg = fetch_web_url cfg ∧
    fetch_header cfg = fetch_async_header cfg ∧
    fetch_header cfg = fetch_web_header cfg ∧
    fetch_classify r = fetch_async_classify r ∧
    fetch_classify r = fetch_web_classify r :=
  ⟨rfl, rfl, rfl, rfl, rfl, rfl⟩

/-- Claim C7: the fixed base URL parses as a hierarchical URL, so for every
configuration prepare_url returns Ok and the UrlParsing branch is never
taken. -/
theorem C7_prepare_url_never_fails :
    (∃ u, Url.parse BASE_URL = Except.ok u) ∧
    ∀ cfg : NewsAPI, ∃ s, NewsAPI.prepare_url cfg = Except.ok s :=
  ⟨⟨{ scheme := "https", host := "newsapi.org", pathSegments := ["v2"],
      query := none }, by rfl⟩,
   fun cfg => ⟨_, rfl⟩⟩

/-- Claim C8: the composed URL does not depend on the api_key: two
configurations equal except for the key compose to the identical result. -/
theorem C8_url_independent_of_key (k1 k2 : String) (e : Endpoint)
    (c : Country) :
    NewsAPI.prepare_url { api_key := k1, endpoint := e, country := c } =
      NewsAPI.prepare_url { api_key := k2, endpoint := e, country := c } :=
  rfl

/-- Claim C9: set_endpoint sets the endpoint field and leaves api_key and
country unchanged; set_country sets the country field and leaves api_key and
endpoint unchanged; both are total functions on the closed enumerations. -/
theorem C9_setters_frame (cfg : NewsAPI) (e : Endpoint) (c : Country) :
    (cfg.set_endpoint e).endpoint = e ∧
    (cfg.set_endpoint e).api_key = cfg.api_key ∧
    (cfg.set_endpoint e).country = cfg.country ∧
    (cfg.set_country c).country = c ∧
    (cfg.set_country c).api_key = cfg.api_key ∧
    (cfg.set_country c).endpoint = cfg.endpoint :=
  ⟨rfl, rfl, rfl, rfl, rfl, rfl⟩

/-- Claim C10: classification compares status with "ok" exactly and
case-sensitively; when it matches, the result is success with the response
itself regardless of the code field, and otherwise the error is determined
by the code field alone via map_response_err. -/
theorem C10_classify_exact_status (r : NewsAPIResponse) :
    (r.status = "ok" → fetch_classify r = Except.ok r) ∧
    (r.status ≠ "ok" →
      fetch_classify r = Except.error (map_response_err r.code)) := by
  constructor
  · intro h
    unfold fetch_classify
    rw [if_pos h]
  · intro h
    unfold fetch_classify
    rw [if_neg h]

/-- Witness for C10: status "OK" with code apiKeyDisabled is still an error,
while status "ok" with the same code is a success. -/
theorem C10_witness :
    fetch_classify
        { status := "OK", articles := [], code := some "apiKeyDisabled" } =
        Except.error (map_response_err (some "apiKeyDisabled")) ∧
    fetch_classify
        { status := "ok", articles := [], code := some "apiKeyDisabled" } =
        Except.ok
          { status := "ok", articles := [], code := some "apiKeyDisabled" } :=
  ⟨(C10_classify_exact_status
      { status := "OK", articles := [], code := some "apiKeyDisabled" }).2
      (by decide),
   (C10_classify_exact_status
      { status := "ok", articles := [], code := some "apiKeyDisabled" }).1
      rfl⟩
